import Mathlib

/-!
# Future access policies of `future_policy.ipp`

A shallow embedding of the access policies that `future_policy.ipp` generates
(`future_policy<void>`, `future_policy<R>`, `shared_future_policy<void>`,
`shared_future_policy<R>`).  A policy function takes the future it is applied to
and yields how the call ends together with the future it leaves behind.
The scoped `lock_guard_type` is acquired and released inside every call, so it
leaves no trace in the sequential state and is not part of the state below.
-/

namespace Spinlock

/-! ## Error codes and exceptions -/

/-- Identity of a `std::error_category` object; categories compare by identity. -/
inductive error_category where
  | generic_category
  | system_category
  | future_category
  | monad_category
  | other (id : Nat)
  deriving DecidableEq

/-- A `std::error_code`: an integer value and the category it belongs to. -/
structure error_code where
  value : Int
  category : error_category
  deriving DecidableEq

/-- The default-constructed `error_type()`: value `0` in the system category. -/
def error_type_default : error_code := ⟨0, .system_category⟩

/-- Modelled from the spec: the enumeration `monad_errc` is declared outside the policy
file; these are the enumerators the policy names ("already satisfied", "no state" and the
"exception_present" marker). -/
inductive monad_errc where
  | already_set
  | no_state
  | exception_present
  deriving DecidableEq

/-- The enumerators of `std::future_errc`. -/
inductive future_errc where
  | broken_promise
  | future_already_retrieved
  | promise_already_satisfied
  | no_state
  deriving DecidableEq

/-- A `std::exception_ptr`: null, the pointer made by
`std::make_exception_ptr(std::system_error(ec))`, or a pointer to an exception
captured elsewhere. -/
inductive exception_ptr where
  | null
  | of_system_error (ec : error_code)
  | captured (id : Nat)
  deriving DecidableEq

/-- What a policy function throws, by the expression that builds it. -/
inductive Thrown where
  /-- thrown by `throw future_error(c)` for an enumerator `c` -/
  | future_error_errc (c : future_errc)
  /-- thrown by `std::future_error e(ec); throw e;` -/
  | future_error_code (ec : error_code)
  /-- thrown by `std::system_error e(ec); throw e;` -/
  | system_error (ec : error_code)
  /-- thrown by `std::rethrow_exception(e)`: the exception `e` refers to -/
  | rethrown (e : exception_ptr)
  deriving DecidableEq

/-- How a call ends. -/
inductive Outcome (α : Type) where
  /-- normal return -/
  | returned (a : α)
  /-- an exception propagates out of the call -/
  | thrown (t : Thrown)
  /-- the process ends in `abort()` -/
  | aborted
  /-- a `wait()` on a pending future: no return before a producer publishes -/
  | blocked
  /-- read of a union member that is not the active one -/
  | undefined
  deriving DecidableEq

/-! ## The state cell and the future that owns it -/

/-- Modelled from the spec: the inline tagged storage of the monad substrate, holding at
most one of value, error, exception. -/
inductive value_storage (R : Type) where
  | empty
  | value (v : R)
  | error (ec : error_code)
  | exception (e : exception_ptr)
  deriving DecidableEq

/-- Modelled from the spec: a `basic_future` is its state cell plus the back-reference to
the promise that will fill it (here: whether one is attached). -/
structure basic_future (R : Type) where
  promise_attached : Bool
  _storage : value_storage R
  deriving DecidableEq

/-- A computation on a future: the outcome of the call and the future afterwards. -/
def Run (R α : Type) : Type := basic_future R → Outcome α × basic_future R

/-- Normal return leaving the future as it is. -/
def Run.pure {R α : Type} (a : α) : Run R α := fun s => (.returned a, s)

/-- Sequencing: the next statement runs only after a normal return. -/
def Run.bind {R α β : Type} (m : Run R α) (k : α → Run R β) : Run R β := fun s =>
  match m s with
  | (.returned a, s1) => k a s1
  | (.thrown t, s1) => (.thrown t, s1)
  | (.aborted, s1) => (.aborted, s1)
  | (.blocked, s1) => (.blocked, s1)
  | (.undefined, s1) => (.undefined, s1)

instance (R : Type) : Monad (Run R) where
  pure := Run.pure
  bind := Run.bind

/-- The compile-time switches of one inclusion of `future_policy.ipp`. -/
structure Config where
  /-- whether `BOOST_SPINLOCK_FUTURE_POLICY_ERROR_TYPE` is defined -/
  error_type_defined : Bool
  /-- whether `BOOST_SPINLOCK_FUTURE_POLICY_EXCEPTION_TYPE` is defined -/
  exception_type_defined : Bool
  deriving DecidableEq

namespace basic_future

variable {R : Type}

/-- Modelled from the spec: `has_value()`, an O(1) test of the status. -/
def has_value (self : basic_future R) : Bool :=
  match self._storage with
  | .value _ => true
  | _ => false

/-- Modelled from the spec: `has_error()`. -/
def has_error (self : basic_future R) : Bool :=
  match self._storage with
  | .error _ => true
  | _ => false

/-- Modelled from the spec: `has_exception()`. -/
def has_exception (self : basic_future R) : Bool :=
  match self._storage with
  | .exception _ => true
  | _ => false

/-- Modelled from the spec: settled, the cell holds a value, an error or an exception. -/
def is_ready (self : basic_future R) : Bool :=
  self.has_value || self.has_error || self.has_exception

/-- Modelled from the spec: a future is invalid when it has no promise attached and its
cell is empty (never attached, moved from, or already consumed). -/
def valid (self : basic_future R) : Bool :=
  self.promise_attached || self.is_ready

/-- Modelled from the spec: `clear()` destroys the active payload and resets the status to
empty; on an empty cell it changes nothing. -/
def clear (self : basic_future R) : basic_future R :=
  { self with _storage := .empty }

end basic_future

/-! ## `future_policy<void>` -/

namespace future_policy_void

/-- The member `is_consuming` of `future_policy<void>`. -/
def is_consuming : Bool := true

/-- The member `_throw_error(monad_errc ec)`; its `bool` result is never produced. -/
def _throw_error (ec : monad_errc) : Outcome Bool :=
  match ec with
  | .already_set => .thrown (.future_error_errc .promise_already_satisfied)
  | .no_state => .thrown (.future_error_errc .no_state)
  | _ => .aborted

end future_policy_void

namespace basic_future

variable {R : Type}

/-- Modelled from the spec: raising a `monad_errc` through the policy hook `_throw_error`;
were the hook to return, the caller would carry on. -/
def throw_error (ec : monad_errc) : Run R Unit := fun s =>
  match future_policy_void._throw_error ec with
  | .returned _ => (.returned (), s)
  | .thrown t => (.thrown t, s)
  | .aborted => (.aborted, s)
  | .blocked => (.blocked, s)
  | .undefined => (.undefined, s)

/-- Modelled from the spec: `_check_validity()` fails with "no state" on an invalid
future. -/
def _check_validity : Run R Unit := fun s =>
  if s.valid then (.returned (), s) else throw_error .no_state s

/-- Modelled from the spec: `wait()` fails with "no state" on an invalid future, returns
at once on a settled one and blocks on a pending one. -/
def wait : Run R Unit := fun s =>
  if s.valid then
    if s.is_ready then (.returned (), s) else (.blocked, s)
  else throw_error .no_state s

/-- The statement `self.clear();`. -/
def do_clear : Run R Unit := fun s => (.returned (), s.clear)

/-- The statement `if(is_consuming) self.clear();`. -/
def clear_if (is_consuming : Bool) : Run R Unit := fun s =>
  if is_consuming then (.returned (), s.clear) else (.returned (), s)

/-- Reading `self._storage.value`. -/
def read_value : Run R R := fun s =>
  match s._storage with
  | .value v => (.returned v, s)
  | _ => (.undefined, s)

/-- Reading `self._storage.error`. -/
def read_error : Run R error_code := fun s =>
  match s._storage with
  | .error ec => (.returned ec, s)
  | _ => (.undefined, s)

/-- Reading `self._storage.exception`. -/
def read_exception : Run R exception_ptr := fun s =>
  match s._storage with
  | .exception e => (.returned e, s)
  | _ => (.undefined, s)

/-- A `throw` statement. -/
def throw_ {α : Type} (t : Thrown) : Run R α := fun s => (.thrown t, s)

/-- The object the call is applied to, as it is at this point of the body. -/
def current : Run R (basic_future R) := fun s => (.returned s, s)

end basic_future

open basic_future

namespace future_policy_void

variable {R : Type}

/-- The common preamble `_pre_get_value<is_consuming>(self)`. -/
def _pre_get_value (cfg : Config) (is_consuming : Bool) : Run R Unit := do
  _check_validity
  if cfg.error_type_defined || cfg.exception_type_defined then
    let self ← current
    if self.has_error || self.has_exception then
      if cfg.error_type_defined then
        if self.has_error then
          let ec ← read_error
          if ec.category = error_category.future_category then
            clear_if is_consuming
            throw_ (Thrown.future_error_code ec)
          else
            clear_if is_consuming
            throw_ (Thrown.system_error ec)
      if cfg.exception_type_defined then
        if self.has_exception then
          let e ← read_exception
          clear_if is_consuming
          throw_ (Thrown.rethrown e)

/-- The member `_get_error_impl<is_consuming>(self)`; `errc_int` is the cast
`(int) monad_errc::...`, whose values are fixed where the enumeration is declared. -/
def _get_error_impl (errc_int : monad_errc → Int) (is_consuming : Bool) :
    Run R error_code := do
  wait
  _check_validity
  let self ← current
  if self.has_error then do
    let ec ← read_error
    clear_if is_consuming
    pure ec
  else if self.has_exception then
    pure ⟨errc_int monad_errc.exception_present, error_category.monad_category⟩
  else
    pure error_type_default

/-- The member `_get_exception_impl<is_consuming>(self)`. -/
def _get_exception_impl (is_consuming : Bool) : Run R exception_ptr := do
  wait
  _check_validity
  let self ← current
  if !self.has_error && !self.has_exception then
    pure exception_ptr.null
  else if self.has_error then do
    let ec ← read_error
    let e := exception_ptr.of_system_error ec
    clear_if is_consuming
    pure e
  else if self.has_exception then do
    let e ← read_exception
    clear_if is_consuming
    pure e
  else
    pure exception_ptr.null

/-- The overload `_get_value(implementation_type &self)`. -/
def _get_value (cfg : Config) : Run Unit Unit := do
  wait
  _pre_get_value cfg is_consuming
  do_clear

/-- The overload `_get_value(const implementation_type &self)`. -/
def _get_value_const (cfg : Config) : Run Unit Unit := do
  wait
  _pre_get_value cfg is_consuming
  do_clear

/-- The overload `_get_value(implementation_type &&self)`. -/
def _get_value_rvalue (cfg : Config) : Run Unit Unit := do
  wait
  _pre_get_value cfg is_consuming
  do_clear

/-- The member `_get_error(const U &self)`. -/
def _get_error (errc_int : monad_errc → Int) : Run R error_code :=
  _get_error_impl errc_int is_consuming

/-- The member `_get_exception(const U &self)`. -/
def _get_exception : Run R exception_ptr :=
  _get_exception_impl is_consuming

end future_policy_void

/-! ## `future_policy<R>` -/

namespace future_policy

variable {R : Type}

/-- The member `is_consuming=impl::is_consuming`, with `impl` the policy
`future_policy<void>`. -/
def is_consuming (_R : Type) : Bool := future_policy_void.is_consuming

/-- The overload `_get_value(implementation_type &self)`, called by `get() &`. -/
def _get_value (cfg : Config) : Run R R := do
  wait
  future_policy_void._pre_get_value cfg (is_consuming R)
  let v ← read_value
  do_clear
  pure v

/-- The overload `_get_value(const implementation_type &self)`, called by
`get() const &`. -/
def _get_value_const (cfg : Config) : Run R R := do
  wait
  future_policy_void._pre_get_value cfg (is_consuming R)
  let v ← read_value
  do_clear
  pure v

/-- The overload `_get_value(implementation_type &&self)`, called by `get() &&`. -/
def _get_value_rvalue (cfg : Config) : Run R R := do
  wait
  future_policy_void._pre_get_value cfg (is_consuming R)
  let v ← read_value
  do_clear
  pure v

end future_policy

/-! ## `shared_future_policy<void>` -/

namespace shared_future_policy_void

variable {R : Type}

/-- The member `is_consuming` of `shared_future_policy<void>`. -/
def is_consuming : Bool := false

/-- The overload `_get_value(implementation_type &self)`. -/
def _get_value (cfg : Config) : Run Unit Unit := do
  wait
  future_policy_void._pre_get_value cfg is_consuming

/-- The overload `_get_value(const implementation_type &self)`. -/
def _get_value_const (cfg : Config) : Run Unit Unit := do
  wait
  future_policy_void._pre_get_value cfg is_consuming

/-- The overload `_get_value(implementation_type &&self)`. -/
def _get_value_rvalue (cfg : Config) : Run Unit Unit := do
  wait
  future_policy_void._pre_get_value cfg is_consuming

/-- The member `_get_error(const U &self)`. -/
def _get_error (errc_int : monad_errc → Int) : Run R error_code :=
  future_policy_void._get_error_impl errc_int is_consuming

/-- The member `_get_exception(const U &self)`. -/
def _get_exception : Run R exception_ptr :=
  future_policy_void._get_exception_impl is_consuming

end shared_future_policy_void

/-! ## `shared_future_policy<R>` -/

namespace shared_future_policy

variable {R : Type}

/-- The member `is_consuming=impl::is_consuming`; in this class `impl` is the typedef
`future_policy<void>`. -/
def is_consuming (_R : Type) : Bool := future_policy_void.is_consuming

/-- The overload `_get_value(implementation_type &self)`, called by `get() &`. -/
def _get_value (cfg : Config) : Run R R := do
  wait
  future_policy_void._pre_get_value cfg (is_consuming R)
  read_value

/-- The overload `_get_value(const implementation_type &self)`, called by
`get() const &`. -/
def _get_value_const (cfg : Config) : Run R R := do
  wait
  future_policy_void._pre_get_value cfg (is_consuming R)
  read_value

/-- The overload `_get_value(implementation_type &&self)`, called by `get() &&`. -/
def _get_value_rvalue (cfg : Config) : Run R R := do
  wait
  future_policy_void._pre_get_value cfg (is_consuming R)
  read_value

end shared_future_policy

/-! ## Ready-made futures -/

/-- Modelled from the spec: the future constructed from a ready value, as
`make_ready_future(v)` returns it: settled with `v`, no promise attached. -/
def make_ready_future {R : Type} (v : R) : basic_future R :=
  { promise_attached := false, _storage := value_storage.value v }

/-- Modelled from the spec: the future constructed from an error code, as
`make_errored_future<R>(v)` returns it. -/
def make_errored_future {R : Type} (v : error_code) : basic_future R :=
  { promise_attached := false, _storage := value_storage.error v }

/-- Modelled from the spec: the future constructed from a captured exception, as
`make_exceptional_future<R>(v)` returns it. -/
def make_exceptional_future {R : Type} (v : exception_ptr) : basic_future R :=
  { promise_attached := false, _storage := value_storage.exception v }


/-! ## Cell invariant -/

namespace basic_future

variable {R : Type}

/-- The cell invariant: at most one of `has_value`, `has_error`, `has_exception` is set. -/
def at_most_one_set (self : basic_future R) : Bool :=
  decide (self.has_value.toNat + self.has_error.toNat + self.has_exception.toNat ≤ 1)

/-- The future `after` is the future `before` as it was, or `before` with its cell
cleared. -/
def unchanged_or_cleared (before after : basic_future R) : Prop :=
  after = before ∨ after = before.clear

end basic_future

/-! ## `_set_error_is_errno` of `boost_result.hpp` -/

namespace outcome_detail

/-- A `boost::error_code` or `boost::error_condition`: an integer value and its category
(`boost::generic_category()`, `boost::system_category()` or another one). -/
structure boost_error_code where
  value : Int
  category : error_category
  deriving DecidableEq

/-- The template parameter `State`: its status word `_status` and whatever else it holds. -/
structure State (T : Type) where
  _status : Nat
  payload : T

variable {T : Type}

/-- The overload `_set_error_is_errno(State &state, const boost::error_code &error)`;
`status_error_is_errno` is the status mask declared with the status word, `win32` tells
whether `_WIN32` is defined. -/
def _set_error_is_errno (status_error_is_errno : Nat) (win32 : Bool) (state : State T)
    (error : boost_error_code) : State T :=
  if error.category = error_category.generic_category
      || (!win32 && error.category = error_category.system_category) then
    { state with _status := state._status ||| status_error_is_errno }
  else
    state

/-- The overload `_set_error_is_errno(State &state, const boost::error_condition &error)`. -/
def _set_error_is_errno_condition (status_error_is_errno : Nat) (win32 : Bool)
    (state : State T) (error : boost_error_code) : State T :=
  if error.category = error_category.generic_category
      || (!win32 && error.category = error_category.system_category) then
    { state with _status := state._status ||| status_error_is_errno }
  else
    state

/-- The overload `_set_error_is_errno(State &state, const boost::errc &)`; the enumerator
passed is not looked at. -/
def _set_error_is_errno_errc (status_error_is_errno : Nat) (state : State T)
    (_unused : Int) : State T :=
  { state with _status := state._status ||| status_error_is_errno }

end outcome_detail

/-! ## Evaluation lemmas -/

section Evaluation

variable {R : Type}

/-- The preamble on a cell holding an error, with the error type defined. -/
lemma pre_get_value_error (x ic p : Bool) (ec : error_code) :
    future_policy_void._pre_get_value ⟨true, x⟩ ic (⟨p, value_storage.error ec⟩ : basic_future R)
      = (Outcome.thrown (if ec.category = error_category.future_category
                          then Thrown.future_error_code ec else Thrown.system_error ec),
         if ic then ⟨p, value_storage.empty⟩ else ⟨p, value_storage.error ec⟩) := by
  by_cases h : ec.category = error_category.future_category <;>
    cases x <;> cases ic <;> cases p <;>
    simp [future_policy_void._pre_get_value, _check_validity, valid, is_ready, has_value,
      has_error, has_exception, current, read_error, clear_if, throw_, clear, bind, Run.bind, h]

/-- The preamble on a cell holding an exception, with the exception type defined. -/
lemma pre_get_value_exception (x ic p : Bool) (e : exception_ptr) :
    future_policy_void._pre_get_value ⟨x, true⟩ ic (⟨p, value_storage.exception e⟩ : basic_future R)
      = (Outcome.thrown (Thrown.rethrown e),
         if ic then ⟨p, value_storage.empty⟩ else ⟨p, value_storage.exception e⟩) := by
  cases x <;> cases ic <;> cases p <;> rfl

/-- The preamble on a cell holding a value returns and changes nothing. -/
lemma pre_get_value_value (cfg : Config) (ic p : Bool) (v : R) :
    future_policy_void._pre_get_value cfg ic (⟨p, value_storage.value v⟩ : basic_future R)
      = (Outcome.returned (), ⟨p, value_storage.value v⟩) := by
  rcases cfg with ⟨a, b⟩
  cases a <;> cases b <;> cases p <;> rfl

/-- On a settled future `wait()` returns at once. -/
lemma wait_error (p : Bool) (ec : error_code) :
    wait (⟨p, value_storage.error ec⟩ : basic_future R)
      = (Outcome.returned (), ⟨p, value_storage.error ec⟩) := by
  cases p <;> rfl

/-- One `get()` of `future_policy<R>` on a cell holding an error, error type defined. -/
lemma future_get_error (x p : Bool) (ec : error_code) :
    future_policy._get_value ⟨true, x⟩ (⟨p, value_storage.error ec⟩ : basic_future R)
      = (Outcome.thrown (if ec.category = error_category.future_category
                          then Thrown.future_error_code ec else Thrown.system_error ec),
         ⟨p, value_storage.empty⟩) := by
  have h := pre_get_value_error (R := R) x true p ec
  simp only [if_true] at h
  simp [future_policy._get_value, future_policy.is_consuming, future_policy_void.is_consuming,
    bind, Run.bind, wait_error, h]

/-- One `get()` of `future_policy<void>` on a cell holding an error, error type defined. -/
lemma future_void_get_error (x p : Bool) (ec : error_code) :
    future_policy_void._get_value ⟨true, x⟩ ⟨p, value_storage.error ec⟩
      = (Outcome.thrown (if ec.category = error_category.future_category
                          then Thrown.future_error_code ec else Thrown.system_error ec),
         ⟨p, value_storage.empty⟩) := by
  have h := pre_get_value_error (R := Unit) x true p ec
  simp only [if_true] at h
  simp [future_policy_void._get_value, future_policy_void.is_consuming,
    bind, Run.bind, wait_error, h]

/-- Every step of a sequence keeps the future or clears its cell, so the sequence does. -/
lemma unchanged_or_cleared_trans {a b c : basic_future R}
    (h1 : unchanged_or_cleared a b) (h2 : unchanged_or_cleared b c) :
    unchanged_or_cleared a c := by
  rcases h1 with rfl | rfl <;> rcases h2 with rfl | rfl
  · exact Or.inl rfl
  · exact Or.inr rfl
  · exact Or.inr rfl
  · exact Or.inr rfl

/-- The tagged storage never has two of the three flags set. -/
lemma at_most_one_set_all (self : basic_future R) : self.at_most_one_set = true := by
  rcases self with ⟨p, st⟩
  cases st <;> rfl

/-- The preamble keeps the future or clears its cell. -/
lemma pre_get_value_frame (cfg : Config) (ic : Bool) (self : basic_future R) :
    unchanged_or_cleared self (future_policy_void._pre_get_value cfg ic self).2 := by
  rcases cfg with ⟨a, b⟩
  rcases self with ⟨p, st⟩
  cases st with
  | error ec =>
    cases a
    · cases b <;> cases p <;> cases ic <;> exact Or.inl rfl
    · rw [pre_get_value_error]
      cases ic
      · exact Or.inl rfl
      · exact Or.inr rfl
  | exception e =>
    cases a <;> cases b <;> cases p <;> cases ic <;>
      first | exact Or.inl rfl | exact Or.inr rfl
  | empty => cases a <;> cases b <;> cases p <;> cases ic <;> exact Or.inl rfl
  | value v => cases a <;> cases b <;> cases p <;> cases ic <;> exact Or.inl rfl

/-- Sequencing two computations that each keep the future or clear its cell. -/
lemma bind_frame {α β : Type} (m : Run R α) (k : α → Run R β)
    (hm : ∀ s, unchanged_or_cleared s (m s).2)
    (hk : ∀ a s, unchanged_or_cleared s (k a s).2) (s : basic_future R) :
    unchanged_or_cleared s ((m >>= k) s).2 := by
  have h1 := hm s
  show unchanged_or_cleared s (Run.bind m k s).2
  unfold Run.bind
  rcases hms : m s with ⟨o, s1⟩
  rw [hms] at h1
  cases o with
  | returned a => exact unchanged_or_cleared_trans h1 (hk a s1)
  | thrown t => exact h1
  | aborted => exact h1
  | blocked => exact h1
  | undefined => exact h1

/-- The call `wait()` leaves the future as it is. -/
lemma wait_frame (s : basic_future R) : unchanged_or_cleared s (wait s).2 := by
  rcases s with ⟨p, st⟩
  cases st <;> cases p <;> exact Or.inl rfl

/-- The call `_check_validity()` leaves the future as it is. -/
lemma check_validity_frame (s : basic_future R) :
    unchanged_or_cleared s (_check_validity s).2 := by
  rcases s with ⟨p, st⟩
  cases st <;> cases p <;> exact Or.inl rfl

/-- Reading the value leaves the future as it is. -/
lemma read_value_frame (s : basic_future R) : unchanged_or_cleared s (read_value s).2 := by
  rcases s with ⟨p, st⟩
  cases st <;> exact Or.inl rfl

/-- The statement `self.clear()` clears the cell. -/
lemma do_clear_frame (s : basic_future R) : unchanged_or_cleared s (do_clear s).2 :=
  Or.inr rfl

/-- A plain return leaves the future as it is. -/
lemma pure_frame {α : Type} (a : α) (s : basic_future R) :
    unchanged_or_cleared s ((pure a : Run R α) s).2 :=
  Or.inl rfl

/-- Each overload of `_get_value` of `future_policy<R>` keeps the future or clears its cell. -/
lemma future_get_value_frame (cfg : Config) (s : basic_future R) :
    unchanged_or_cleared s (future_policy._get_value cfg s).2 := by
  unfold future_policy._get_value
  refine bind_frame _ _ wait_frame (fun _ => ?_) s
  refine bind_frame _ _ (pre_get_value_frame cfg _) (fun _ => ?_)
  refine bind_frame _ _ read_value_frame (fun v => ?_)
  exact bind_frame _ _ do_clear_frame (fun _ => pure_frame v)

/-- Each overload of `_get_value` of `future_policy<void>` keeps the future or clears its
cell. -/
lemma future_void_get_value_frame (cfg : Config) (s : basic_future Unit) :
    unchanged_or_cleared s (future_policy_void._get_value cfg s).2 := by
  unfold future_policy_void._get_value
  refine bind_frame _ _ wait_frame (fun _ => ?_) s
  exact bind_frame _ _ (pre_get_value_frame cfg _) (fun _ => do_clear_frame)

/-- Each overload of `_get_value` of `shared_future_policy<void>` keeps the future or clears
its cell. -/
lemma shared_void_get_value_frame (cfg : Config) (s : basic_future Unit) :
    unchanged_or_cleared s (shared_future_policy_void._get_value cfg s).2 := by
  unfold shared_future_policy_void._get_value
  exact bind_frame _ _ wait_frame (fun _ => pre_get_value_frame cfg _) s

/-- Each overload of `_get_value` of `shared_future_policy<R>` keeps the future or clears its
cell. -/
lemma shared_get_value_frame (cfg : Config) (s : basic_future R) :
    unchanged_or_cleared s (shared_future_policy._get_value cfg s).2 := by
  unfold shared_future_policy._get_value
  refine bind_frame _ _ wait_frame (fun _ => ?_) s
  exact bind_frame _ _ (pre_get_value_frame cfg _) (fun _ => read_value_frame)

/-- The member `_get_error_impl` keeps the future or clears its cell. -/
lemma get_error_impl_frame (errc_int : monad_errc → Int) (ic : Bool) (s : basic_future R) :
    unchanged_or_cleared s (future_policy_void._get_error_impl errc_int ic s).2 := by
  rcases s with ⟨p, st⟩
  cases st <;> cases p <;> cases ic <;> first | exact Or.inl rfl | exact Or.inr rfl

/-- The member `_get_exception_impl` keeps the future or clears its cell. -/
lemma get_exception_impl_frame (ic : Bool) (s : basic_future R) :
    unchanged_or_cleared s (future_policy_void._get_exception_impl ic s).2 := by
  rcases s with ⟨p, st⟩
  cases st <;> cases p <;> cases ic <;> first | exact Or.inl rfl | exact Or.inr rfl

end Evaluation

/-! ## Claims -/

section Claims

variable {R : Type}

/-- C1, as the code has it: with the error type defined, `get()` on a cell holding the error
code `ec` never returns a value; it throws a system error carrying exactly `ec` unless the
category of `ec` is the future category, and then it throws a future error carrying `ec`.
This holds for the preamble in either mode and for `get()` of `future_policy<R>` and
`future_policy<void>`. -/
theorem get_on_error_cell_throws (x ic p : Bool) (ec : error_code) :
    (future_policy_void._pre_get_value ⟨true, x⟩ ic (⟨p, value_storage.error ec⟩ : basic_future R)).1
        = Outcome.thrown (if ec.category = error_category.future_category
                            then Thrown.future_error_code ec else Thrown.system_error ec)
    ∧ (future_policy._get_value ⟨true, x⟩ (⟨p, value_storage.error ec⟩ : basic_future R)).1
        = Outcome.thrown (if ec.category = error_category.future_category
                            then Thrown.future_error_code ec else Thrown.system_error ec)
    ∧ (future_policy_void._get_value ⟨true, x⟩ ⟨p, value_storage.error ec⟩).1
        = Outcome.thrown (if ec.category = error_category.future_category
                            then Thrown.future_error_code ec else Thrown.system_error ec) := by
  refine ⟨?_, ?_, ?_⟩
  · rw [pre_get_value_error]
  · rw [future_get_error]
  · rw [future_void_get_error]

/-- C1 fails as stated: on a cell holding the code 1 of the future category, `get()` throws
a future error built from the code, not a system error. -/
theorem get_on_future_category_error_not_system_error :
    (future_policy._get_value ⟨true, true⟩
        (make_errored_future ⟨1, error_category.future_category⟩ : basic_future Nat)).1
      = Outcome.thrown (Thrown.future_error_code ⟨1, error_category.future_category⟩)
    ∧ (future_policy._get_value ⟨true, true⟩
        (make_errored_future ⟨1, error_category.future_category⟩ : basic_future Nat)).1
      ≠ Outcome.thrown (Thrown.system_error ⟨1, error_category.future_category⟩) := by
  decide

/-- C2: on a cell holding an error or an exception, `get()` of the consuming policies
(`future_policy<R>`, `future_policy<void>`) throws and leaves the cell empty, with none of
`has_value`, `has_error`, `has_exception` set; a stored exception `e` is rethrown as `e`;
with `is_consuming = false` (the preamble itself, and `get()` of
`shared_future_policy<void>`) the throw leaves the cell as it was. -/
theorem get_throw_clears_iff_consuming (x p : Bool) (ec : error_code) (e : exception_ptr) :
    future_policy._get_value ⟨true, x⟩ (⟨p, value_storage.error ec⟩ : basic_future R)
        = (Outcome.thrown (if ec.category = error_category.future_category
                            then Thrown.future_error_code ec else Thrown.system_error ec),
           ⟨p, value_storage.empty⟩)
    ∧ future_policy._get_value ⟨x, true⟩ (⟨p, value_storage.exception e⟩ : basic_future R)
        = (Outcome.thrown (Thrown.rethrown e), ⟨p, value_storage.empty⟩)
    ∧ future_policy_void._get_value ⟨true, x⟩ ⟨p, value_storage.error ec⟩
        = (Outcome.thrown (if ec.category = error_category.future_category
                            then Thrown.future_error_code ec else Thrown.system_error ec),
           ⟨p, value_storage.empty⟩)
    ∧ future_policy_void._get_value ⟨x, true⟩ ⟨p, value_storage.exception e⟩
        = (Outcome.thrown (Thrown.rethrown e), ⟨p, value_storage.empty⟩)
    ∧ ((⟨p, value_storage.empty⟩ : basic_future R).has_value = false
        ∧ (⟨p, value_storage.empty⟩ : basic_future R).has_error = false
        ∧ (⟨p, value_storage.empty⟩ : basic_future R).has_exception = false)
    ∧ future_policy_void._pre_get_value ⟨true, x⟩ false
          (⟨p, value_storage.error ec⟩ : basic_future R)
        = (Outcome.thrown (if ec.category = error_category.future_category
                            then Thrown.future_error_code ec else Thrown.system_error ec),
           ⟨p, value_storage.error ec⟩)
    ∧ future_policy_void._pre_get_value ⟨x, true⟩ false
          (⟨p, value_storage.exception e⟩ : basic_future R)
        = (Outcome.thrown (Thrown.rethrown e), ⟨p, value_storage.exception e⟩)
    ∧ shared_future_policy_void._get_value ⟨true, x⟩ ⟨p, value_storage.error ec⟩
        = (Outcome.thrown (if ec.category = error_category.future_category
                            then Thrown.future_error_code ec else Thrown.system_error ec),
           ⟨p, value_storage.error ec⟩)
    ∧ shared_future_policy_void._get_value ⟨x, true⟩ ⟨p, value_storage.exception e⟩
        = (Outcome.thrown (Thrown.rethrown e), ⟨p, value_storage.exception e⟩) := by
  have hf := pre_get_value_error (R := R) x false p ec
  have hu := pre_get_value_error (R := Unit) x false p ec
  simp only [Bool.false_eq_true, if_false] at hf hu
  refine ⟨future_get_error x p ec, ?_, future_void_get_error x p ec, ?_,
    ⟨rfl, rfl, rfl⟩, hf, ?_, ?_, ?_⟩
  · cases x <;> cases p <;> rfl
  · cases x <;> cases p <;> rfl
  · cases x <;> cases p <;> rfl
  · simp [shared_future_policy_void._get_value, shared_future_policy_void.is_consuming,
      bind, Run.bind, wait_error, hu]
  · cases x <;> cases p <;> rfl

/-- C3: for every value `v`, `get()` of the consuming `future_policy<R>` on
`make_ready_future(v)` returns `v` and leaves the cell empty, and a second `get()` on the
future left behind throws the future error `no_state` and returns no value. -/
theorem ready_future_get_then_no_state (cfg : Config) (v : R) :
    (future_policy._get_value cfg (make_ready_future v)).1 = Outcome.returned v
    ∧ (future_policy._get_value cfg (make_ready_future v)).2._storage = value_storage.empty
    ∧ (future_policy._get_value cfg (make_ready_future v)).2.has_value = false
    ∧ (future_policy._get_value cfg (make_ready_future v)).2.has_error = false
    ∧ (future_policy._get_value cfg (make_ready_future v)).2.has_exception = false
    ∧ (future_policy._get_value cfg (future_policy._get_value cfg (make_ready_future v)).2).1
        = Outcome.thrown (Thrown.future_error_errc future_errc.no_state) := by
  rcases cfg with ⟨a, b⟩
  cases a <;> cases b <;> exact ⟨rfl, rfl, rfl, rfl, rfl, rfl⟩

/-- C4, the code at the failing input: `get()` of `shared_future_policy<R>` on a settled
cell holding the error code 5 of the generic category throws the system error and leaves
the cell empty, so a second `get()` throws the future error `no_state` instead of the
same system error; on a cell holding a value `get()` returns it and keeps the cell. -/
theorem shared_get_on_error_cell_clears :
    shared_future_policy._get_value ⟨true, true⟩
        (make_errored_future ⟨5, error_category.generic_category⟩ : basic_future Nat)
      = (Outcome.thrown (Thrown.system_error ⟨5, error_category.generic_category⟩),
         ⟨false, value_storage.empty⟩)
    ∧ shared_future_policy._get_value ⟨true, true⟩
        (shared_future_policy._get_value ⟨true, true⟩
          (make_errored_future ⟨5, error_category.generic_category⟩ : basic_future Nat)).2
      = (Outcome.thrown (Thrown.future_error_errc future_errc.no_state),
         ⟨false, value_storage.empty⟩)
    ∧ shared_future_policy._get_value ⟨true, true⟩
        (make_exceptional_future (exception_ptr.captured 7) : basic_future Nat)
      = (Outcome.thrown (Thrown.rethrown (exception_ptr.captured 7)),
         ⟨false, value_storage.empty⟩)
    ∧ shared_future_policy._get_value ⟨true, true⟩ (make_ready_future (42 : Nat))
      = (Outcome.returned 42, make_ready_future 42) := by
  decide

/-- C5, the code at the failing input: for a non-void value type the member
`is_consuming` of `shared_future_policy<R>` is `true`, while that of
`shared_future_policy<void>` is `false`; both plain future policies have `true`. -/
theorem shared_policy_is_consuming_value :
    shared_future_policy.is_consuming Nat = true
    ∧ shared_future_policy_void.is_consuming = false
    ∧ future_policy.is_consuming Nat = true
    ∧ future_policy_void.is_consuming = true := by
  decide

/-- C6: `_throw_error` never returns: `already_set` throws the future error
`promise_already_satisfied`, `no_state` throws the future error `no_state`, and any other
code ends in `abort()` with nothing thrown. -/
theorem throw_error_never_returns (ec : monad_errc) :
    (∀ b : Bool, future_policy_void._throw_error ec ≠ Outcome.returned b)
    ∧ future_policy_void._throw_error monad_errc.already_set
        = Outcome.thrown (Thrown.future_error_errc future_errc.promise_already_satisfied)
    ∧ future_policy_void._throw_error monad_errc.no_state
        = Outcome.thrown (Thrown.future_error_errc future_errc.no_state)
    ∧ (ec = monad_errc.already_set ∨ ec = monad_errc.no_state
        ∨ future_policy_void._throw_error ec = Outcome.aborted) := by
  cases ec <;> simp [future_policy_void._throw_error]

/-- C7: on a cell holding an exception, `get_error()` returns the error code whose value
is `(int) monad_errc::exception_present` in the monad category, which is not the
default-constructed error code; so in either mode of `_get_error_impl` and through
`_get_error` of the future and the shared future policy. -/
theorem get_error_on_exception_cell (errc_int : monad_errc → Int) (ic p : Bool)
    (e : exception_ptr) :
    (future_policy_void._get_error_impl errc_int ic
        (⟨p, value_storage.exception e⟩ : basic_future R)).1
      = Outcome.returned ⟨errc_int monad_errc.exception_present, error_category.monad_category⟩
    ∧ (future_policy_void._get_error errc_int
        (⟨p, value_storage.exception e⟩ : basic_future R)).1
      = Outcome.returned ⟨errc_int monad_errc.exception_present, error_category.monad_category⟩
    ∧ (shared_future_policy_void._get_error errc_int
        (⟨p, value_storage.exception e⟩ : basic_future R)).1
      = Outcome.returned ⟨errc_int monad_errc.exception_present, error_category.monad_category⟩
    ∧ (⟨errc_int monad_errc.exception_present, error_category.monad_category⟩ : error_code)
      ≠ error_type_default := by
  refine ⟨?_, ?_, ?_, ?_⟩
  · cases ic <;> cases p <;> rfl
  · cases p <;> rfl
  · cases p <;> rfl
  · simp [error_type_default]

/-- C8, as the code has it: on a cell holding the error code `ec`, `get_exception()` returns
the pointer made by `std::make_exception_ptr(std::system_error(ec))`: never the null
pointer, built from the stored code and nothing else, and different for different codes. -/
theorem get_exception_on_error_cell (ic p : Bool) (ec : error_code) :
    (future_policy_void._get_exception_impl ic
        (⟨p, value_storage.error ec⟩ : basic_future R)).1
      = Outcome.returned (exception_ptr.of_system_error ec)
    ∧ (future_policy_void._get_exception
        (⟨p, value_storage.error ec⟩ : basic_future R)).1
      = Outcome.returned (exception_ptr.of_system_error ec)
    ∧ (shared_future_policy_void._get_exception
        (⟨p, value_storage.error ec⟩ : basic_future R)).1
      = Outcome.returned (exception_ptr.of_system_error ec)
    ∧ exception_ptr.of_system_error ec ≠ exception_ptr.null := by
  refine ⟨?_, ?_, ?_, ?_⟩
  · cases ic <;> cases p <;> rfl
  · cases p <;> rfl
  · cases p <;> rfl
  · simp

/-- C8 fails as stated: no single marker is what `get_exception()` returns on every cell
holding an error code; the cells holding the codes 1 and 2 of the generic category give
different pointers. -/
theorem get_exception_no_error_present_sentinel :
    ¬ ∃ s : exception_ptr, ∀ ec : error_code,
        (future_policy_void._get_exception (make_errored_future ec : basic_future Nat)).1
          = Outcome.returned s := by
  rintro ⟨s, hs⟩
  have h1 := hs ⟨1, error_category.generic_category⟩
  have h2 := hs ⟨2, error_category.generic_category⟩
  rw [show (future_policy_void._get_exception
        (make_errored_future ⟨1, error_category.generic_category⟩ : basic_future Nat)).1
      = Outcome.returned (exception_ptr.of_system_error ⟨1, error_category.generic_category⟩)
      from rfl] at h1
  rw [show (future_policy_void._get_exception
        (make_errored_future ⟨2, error_category.generic_category⟩ : basic_future Nat)).1
      = Outcome.returned (exception_ptr.of_system_error ⟨2, error_category.generic_category⟩)
      from rfl] at h2
  have h3 := h1.trans h2.symm
  exact absurd h3 (by decide)

/-- C9: on a cell holding the error code `ec`, `get_error()` returns exactly `ec`, and
leaves the cell empty when `is_consuming` and as it was otherwise; so for
`_get_error_impl` in either mode, for `_get_error` of the future policy (consuming) and of
the shared future policy (not consuming) on `make_errored_future(ec)`. -/
theorem get_error_on_error_cell (errc_int : monad_errc → Int) (ic p : Bool) (ec : error_code) :
    future_policy_void._get_error_impl errc_int ic
        (⟨p, value_storage.error ec⟩ : basic_future R)
      = (Outcome.returned ec,
         if ic then ⟨p, value_storage.empty⟩ else ⟨p, value_storage.error ec⟩)
    ∧ future_policy_void._get_error errc_int (make_errored_future ec : basic_future R)
      = (Outcome.returned ec, ⟨false, value_storage.empty⟩)
    ∧ shared_future_policy_void._get_error errc_int (make_errored_future ec : basic_future R)
      = (Outcome.returned ec, make_errored_future ec) := by
  refine ⟨?_, rfl, rfl⟩
  cases ic <;> cases p <;> rfl

/-- C10: on every future, the three call shapes of `get()` of the consuming policy
(`_get_value` on a mutable lvalue, a const lvalue, an rvalue) end the same way and leave
the same future, for `future_policy<R>` and for `future_policy<void>`. -/
theorem get_value_call_shapes_agree (cfg : Config) (self : basic_future R)
    (self_void : basic_future Unit) :
    future_policy._get_value_const cfg self = future_policy._get_value cfg self
    ∧ future_policy._get_value_rvalue cfg self = future_policy._get_value cfg self
    ∧ future_policy_void._get_value_const cfg self_void
        = future_policy_void._get_value cfg self_void
    ∧ future_policy_void._get_value_rvalue cfg self_void
        = future_policy_void._get_value cfg self_void :=
  ⟨rfl, rfl, rfl, rfl⟩

/-- C11: every access operation of the future policies (the preamble, the three overloads of
`_get_value` of each of the four policies, `_get_error_impl` and `_get_exception_impl` in
either mode), however it ends, leaves the future it was given either as it was or with its
cell cleared to empty, and the future left behind has at most one of `has_value`,
`has_error`, `has_exception` set. -/
theorem access_keeps_or_clears_cell (cfg : Config) (errc_int : monad_errc → Int) (ic : Bool)
    (self : basic_future R) (self_void : basic_future Unit) :
    (∀ f ∈ [fun s => (future_policy_void._pre_get_value cfg ic s).2,
            fun s => (future_policy._get_value cfg s).2,
            fun s => (future_policy._get_value_const cfg s).2,
            fun s => (future_policy._get_value_rvalue cfg s).2,
            fun s => (shared_future_policy._get_value cfg s).2,
            fun s => (shared_future_policy._get_value_const cfg s).2,
            fun s => (shared_future_policy._get_value_rvalue cfg s).2,
            fun s => (future_policy_void._get_error_impl errc_int ic s).2,
            fun s => (future_policy_void._get_exception_impl ic s).2],
        unchanged_or_cleared self (f self) ∧ (f self).at_most_one_set = true)
    ∧ (∀ g ∈ [fun s => (future_policy_void._get_value cfg s).2,
              fun s => (future_policy_void._get_value_const cfg s).2,
              fun s => (future_policy_void._get_value_rvalue cfg s).2,
              fun s => (shared_future_policy_void._get_value cfg s).2,
              fun s => (shared_future_policy_void._get_value_const cfg s).2,
              fun s => (shared_future_policy_void._get_value_rvalue cfg s).2],
        unchanged_or_cleared self_void (g self_void) ∧ (g self_void).at_most_one_set = true)
    ∧ self.clear._storage = value_storage.empty
    ∧ self.clear.has_value = false ∧ self.clear.has_error = false
    ∧ self.clear.has_exception = false := by
  refine ⟨?_, ?_, rfl, rfl, rfl, rfl⟩
  · intro f hf
    simp only [List.mem_cons, List.mem_singleton, List.mem_nil_iff, or_false] at hf
    rcases hf with rfl | rfl | rfl | rfl | rfl | rfl | rfl | rfl | rfl
    · exact ⟨pre_get_value_frame cfg ic self, at_most_one_set_all _⟩
    · exact ⟨future_get_value_frame cfg self, at_most_one_set_all _⟩
    · exact ⟨future_get_value_frame cfg self, at_most_one_set_all _⟩
    · exact ⟨future_get_value_frame cfg self, at_most_one_set_all _⟩
    · exact ⟨shared_get_value_frame cfg self, at_most_one_set_all _⟩
    · exact ⟨shared_get_value_frame cfg self, at_most_one_set_all _⟩
    · exact ⟨shared_get_value_frame cfg self, at_most_one_set_all _⟩
    · exact ⟨get_error_impl_frame errc_int ic self, at_most_one_set_all _⟩
    · exact ⟨get_exception_impl_frame ic self, at_most_one_set_all _⟩
  · intro g hg
    simp only [List.mem_cons, List.mem_singleton, List.mem_nil_iff, or_false] at hg
    rcases hg with rfl | rfl | rfl | rfl | rfl | rfl
    · exact ⟨future_void_get_value_frame cfg self_void, at_most_one_set_all _⟩
    · exact ⟨future_void_get_value_frame cfg self_void, at_most_one_set_all _⟩
    · exact ⟨future_void_get_value_frame cfg self_void, at_most_one_set_all _⟩
    · exact ⟨shared_void_get_value_frame cfg self_void, at_most_one_set_all _⟩
    · exact ⟨shared_void_get_value_frame cfg self_void, at_most_one_set_all _⟩
    · exact ⟨shared_void_get_value_frame cfg self_void, at_most_one_set_all _⟩

/-- C12, as the code has it: on a settled cell holding a value, `get_error()` returns the
default-constructed error code and leaves the cell as it was, in either mode of
`_get_error_impl` and through `_get_error` of the consuming future policy and of the shared
policy; on a pending future (promise attached, cell empty) the call blocks in `wait()`. -/
theorem get_error_on_value_cell (errc_int : monad_errc → Int) (ic p : Bool) (v : R) :
    future_policy_void._get_error_impl errc_int ic (⟨p, value_storage.value v⟩ : basic_future R)
      = (Outcome.returned error_type_default, ⟨p, value_storage.value v⟩)
    ∧ future_policy_void._get_error errc_int (⟨p, value_storage.value v⟩ : basic_future R)
      = (Outcome.returned error_type_default, ⟨p, value_storage.value v⟩)
    ∧ shared_future_policy_void._get_error errc_int
        (⟨p, value_storage.value v⟩ : basic_future R)
      = (Outcome.returned error_type_default, ⟨p, value_storage.value v⟩)
    ∧ future_policy_void._get_error_impl errc_int ic
        (⟨true, value_storage.empty⟩ : basic_future R)
      = (Outcome.blocked, ⟨true, value_storage.empty⟩) := by
  refine ⟨?_, ?_, ?_, ?_⟩
  · cases ic <;> cases p <;> rfl
  · cases p <;> rfl
  · cases p <;> rfl
  · cases ic <;> rfl

/-- C12 fails as stated: a pending future is valid and holds neither an error nor an
exception, yet `get_error()` on it blocks in `wait()` and returns no error code. -/
theorem get_error_on_pending_cell_blocks :
    (⟨true, value_storage.empty⟩ : basic_future Nat).valid = true
    ∧ (⟨true, value_storage.empty⟩ : basic_future Nat).has_error = false
    ∧ (⟨true, value_storage.empty⟩ : basic_future Nat).has_exception = false
    ∧ future_policy_void._get_error (fun _ => 0)
        (⟨true, value_storage.empty⟩ : basic_future Nat)
      = (Outcome.blocked, ⟨true, value_storage.empty⟩)
    ∧ (future_policy_void._get_error (fun _ => 0)
        (⟨true, value_storage.empty⟩ : basic_future Nat)).1
      ≠ Outcome.returned error_type_default := by
  refine ⟨rfl, rfl, rfl, rfl, ?_⟩
  rw [show (future_policy_void._get_error (fun _ => 0)
        (⟨true, value_storage.empty⟩ : basic_future Nat)).1 = Outcome.blocked from rfl]
  exact fun h => Outcome.noConfusion h

/-- C13: `_set_error_is_errno` on a `boost::error_code` ors the mask `status_error_is_errno`
into the status exactly when the category is the generic category or, where `_WIN32` is not
defined, the system category, and otherwise leaves the state as it is: every status bit is
afterwards what it was, or set because it is a bit of the mask and the category matched, and
the rest of the state is untouched; on a `boost::errc` the mask is ored in always. -/
theorem set_error_is_errno_bits {T : Type} (status_error_is_errno : Nat) (win32 : Bool)
    (state : outcome_detail.State T) (error : outcome_detail.boost_error_code) (c : Int) :
    (∀ i : Nat,
      (outcome_detail._set_error_is_errno status_error_is_errno win32 state error)._status.testBit i
        = (state._status.testBit i
            || (status_error_is_errno.testBit i
                && (decide (error.category = error_category.generic_category)
                    || (!win32 && decide (error.category = error_category.system_category))))))
    ∧ (outcome_detail._set_error_is_errno status_error_is_errno win32 state error).payload
        = state.payload
    ∧ (outcome_detail._set_error_is_errno status_error_is_errno win32 state error)._status
        = (if error.category = error_category.generic_category
              ∨ (win32 = false ∧ error.category = error_category.system_category)
            then state._status ||| status_error_is_errno else state._status)
    ∧ (∀ i : Nat,
      (outcome_detail._set_error_is_errno_errc status_error_is_errno state c)._status.testBit i
        = (state._status.testBit i || status_error_is_errno.testBit i))
    ∧ (outcome_detail._set_error_is_errno_errc status_error_is_errno state c).payload
        = state.payload := by
  refine ⟨?_, ?_, ?_, ?_, rfl⟩
  · intro i
    unfold outcome_detail._set_error_is_errno
    split
    · rename_i h
      simp only [Nat.testBit_lor, h, Bool.and_true]
    · rename_i h
      have h2 : (decide (error.category = error_category.generic_category)
          || (!win32 && decide (error.category = error_category.system_category))) = false := by
        simpa using h
      rw [h2]
      simp
  · unfold outcome_detail._set_error_is_errno
    split <;> rfl
  · unfold outcome_detail._set_error_is_errno
    cases win32 <;> by_cases h1 : error.category = error_category.generic_category <;>
      by_cases h2 : error.category = error_category.system_category <;> simp [h1, h2]
  · intro i
    simp [outcome_detail._set_error_is_errno_errc, Nat.testBit_lor]

/-- C14: under the consuming future policy, `get_error()` on a cell holding an exception
returns the `exception_present` code and leaves the cell as it was, so a following
`get_exception()` still returns the stored exception (and then clears the cell), while
`get_exception()` on a cell holding an error returns the wrapped code and clears the
cell. -/
theorem wrong_alternative_queries_not_symmetric (errc_int : monad_errc → Int) (p : Bool)
    (e : exception_ptr) (ec : error_code) :
    future_policy_void._get_error errc_int (⟨p, value_storage.exception e⟩ : basic_future R)
      = (Outcome.returned ⟨errc_int monad_errc.exception_present, error_category.monad_category⟩,
         ⟨p, value_storage.exception e⟩)
    ∧ future_policy_void._get_exception
        (future_policy_void._get_error errc_int
          (⟨p, value_storage.exception e⟩ : basic_future R)).2
      = (Outcome.returned e, ⟨p, value_storage.empty⟩)
    ∧ future_policy_void._get_exception (⟨p, value_storage.error ec⟩ : basic_future R)
      = (Outcome.returned (exception_ptr.of_system_error ec), ⟨p, value_storage.empty⟩)
    ∧ (⟨p, value_storage.empty⟩ : basic_future R) ≠ ⟨p, value_storage.error ec⟩ := by
  refine ⟨?_, ?_, ?_, ?_⟩
  · cases p <;> rfl
  · cases p <;> rfl
  · cases p <;> rfl
  · intro h
    injection h with _ h2
    exact value_storage.noConfusion h2

end Claims

end Spinlock
